import Mathlib

/-!
Verification of the ForensicSense reconnaissance pipeline against its
natural-language specification.

The development shallowly embeds the Python sources:
* `forensicsense/utils/logging.py`  — hash-chained audit log (`AuditLogger`)
* `forensicsense/utils/crypto.py`   — evidence sealing (`EvidenceSealer`)
* `forensicsense/intel/network_scanner.py` — TCP port scanner (`NetworkScanner`)
* `forensicsense/intel/osint.py`    — OSINT aggregation (`OSINTCollector`)
* `forensicsense/intel/profiler.py` — staged orchestrator (`TargetProfiler`)

Python JSON values are modelled by the inductive type `Json`; Python dicts
by association lists of string keys.  The SHA-256 digest and the
`json.dumps` canonical serialisation are the two standard-library black
boxes of the code; they enter the model as function parameters (`H` and
`dumps`), so every theorem holds for the real instantiation, and claims
that need collision-freeness state it as an injectivity hypothesis.
Network and system effects (sockets, DNS, HTTP, the file system) are
modelled by explicit outcome values passed to the embedded functions.
-/

set_option maxRecDepth 10000

namespace ForensicSense

/-- Model of a parsed Python/JSON value (the output of `json.loads` and the
payloads held in dicts throughout the code base).  Objects are association
lists; `json.loads` never produces duplicate keys, so canonical values have
`Nodup` key lists. -/
inductive Json where
  | null
  | bool (b : Bool)
  | num (n : Int)
  | str (s : String)
  | arr (items : List Json)
  | obj (entries : List (String × Json))

instance : Inhabited Json := ⟨Json.null⟩

mutual
/-- Decidable equality on `Json` (the derive handler does not support the
nested occurrence of `List`, so it is spelled out). -/
def jsonDecEq : (a b : Json) → Decidable (a = b)
  | .null, .null => .isTrue rfl
  | .null, .bool _ => .isFalse nofun
  | .null, .num _ => .isFalse nofun
  | .null, .str _ => .isFalse nofun
  | .null, .arr _ => .isFalse nofun
  | .null, .obj _ => .isFalse nofun
  | .bool _, .null => .isFalse nofun
  | .bool x, .bool y =>
    match decEq x y with
    | .isTrue h => .isTrue (congrArg Json.bool h)
    | .isFalse h => .isFalse (fun hh => h (by injection hh))
  | .bool _, .num _ => .isFalse nofun
  | .bool _, .str _ => .isFalse nofun
  | .bool _, .arr _ => .isFalse nofun
  | .bool _, .obj _ => .isFalse nofun
  | .num _, .null => .isFalse nofun
  | .num _, .bool _ => .isFalse nofun
  | .num x, .num y =>
    match decEq x y with
    | .isTrue h => .isTrue (congrArg Json.num h)
    | .isFalse h => .isFalse (fun hh => h (by injection hh))
  | .num _, .str _ => .isFalse nofun
  | .num _, .arr _ => .isFalse nofun
  | .num _, .obj _ => .isFalse nofun
  | .str _, .null => .isFalse nofun
  | .str _, .bool _ => .isFalse nofun
  | .str _, .num _ => .isFalse nofun
  | .str x, .str y =>
    match decEq x y with
    | .isTrue h => .isTrue (congrArg Json.str h)
    | .isFalse h => .isFalse (fun hh => h (by injection hh))
  | .str _, .arr _ => .isFalse nofun
  | .str _, .obj _ => .isFalse nofun
  | .arr _, .null => .isFalse nofun
  | .arr _, .bool _ => .isFalse nofun
  | .arr _, .num _ => .isFalse nofun
  | .arr _, .str _ => .isFalse nofun
  | .arr x, .arr y =>
    match jsonDecEqList x y with
    | .isTrue h => .isTrue (congrArg Json.arr h)
    | .isFalse h => .isFalse (fun hh => h (by injection hh))
  | .arr _, .obj _ => .isFalse nofun
  | .obj _, .null => .isFalse nofun
  | .obj _, .bool _ => .isFalse nofun
  | .obj _, .num _ => .isFalse nofun
  | .obj _, .str _ => .isFalse nofun
  | .obj _, .arr _ => .isFalse nofun
  | .obj x, .obj y =>
    match jsonDecEqEntries x y with
    | .isTrue h => .isTrue (congrArg Json.obj h)
    | .isFalse h => .isFalse (fun hh => h (by injection hh))

/-- Decidable equality on lists of `Json`. -/
def jsonDecEqList : (a b : List Json) → Decidable (a = b)
  | [], [] => .isTrue rfl
  | [], _ :: _ => .isFalse nofun
  | _ :: _, [] => .isFalse nofun
  | x :: xs, y :: ys =>
    match jsonDecEq x y, jsonDecEqList xs ys with
    | .isTrue h1, .isTrue h2 => .isTrue (by rw [h1, h2])
    | .isFalse h1, _ => .isFalse (fun hh => h1 (congrArg List.headI hh))
    | _, .isFalse h2 => .isFalse (fun hh => h2 (congrArg List.tail hh))

/-- Decidable equality on object entry lists. -/
def jsonDecEqEntries : (a b : List (String × Json)) → Decidable (a = b)
  | [], [] => .isTrue rfl
  | [], _ :: _ => .isFalse nofun
  | _ :: _, [] => .isFalse nofun
  | (k, v) :: xs, (k', v') :: ys =>
    match decEq k k', jsonDecEq v v', jsonDecEqEntries xs ys with
    | .isTrue h0, .isTrue h1, .isTrue h2 => .isTrue (by rw [h0, h1, h2])
    | .isFalse h0, _, _ =>
      .isFalse (fun hh => h0 (congrArg (fun l => (l.headI.1)) hh))
    | _, .isFalse h1, _ =>
      .isFalse (fun hh => h1 (congrArg (fun l => (l.headI.2)) hh))
    | _, _, .isFalse h2 => .isFalse (fun hh => h2 (congrArg List.tail hh))
end

instance : DecidableEq Json := jsonDecEq

namespace Json

/-- `d.get(k)` on a Python dict: first binding of the key, if any. -/
def dictGet (kvs : List (String × Json)) (k : String) : Option Json :=
  match kvs with
  | [] => none
  | (k', v) :: rest => if k' = k then some v else dictGet rest k

/-- `d.pop(k)`: the removed value together with the remaining bindings,
or `none` when the key is absent (Python raises `KeyError` then). -/
def dictPop (kvs : List (String × Json)) (k : String) :
    Option (Json × List (String × Json)) :=
  match kvs with
  | [] => none
  | (k', v) :: rest =>
    if k' = k then some (v, rest)
    else match dictPop rest k with
      | none => none
      | some (w, rest') => some (w, (k', v) :: rest')

/-- `d[k] = v` on a key that is already present: replace the bound value
in place (Python keeps the key's insertion position). -/
def dictSet (kvs : List (String × Json)) (k : String) (v : Json) :
    List (String × Json) :=
  match kvs with
  | [] => []
  | (k', w) :: rest =>
    if k' = k then (k', v) :: dictSet rest k v
    else (k', w) :: dictSet rest k v

end Json

/-- Strict lexicographic order on character lists (Python `<` on `str`,
comparing Unicode code points). -/
def lexLt : List Char → List Char → Bool
  | _, [] => false
  | [], _ :: _ => true
  | a :: as, b :: bs => if a < b then true else if a = b then lexLt as bs else false

/-- Python `s1 < s2` on strings. -/
def strLt (a b : String) : Bool := lexLt a.toList b.toList

/-- Insert a key/value pair into a key-sorted association list
(implements the ordering `json.dumps(_, sort_keys=True)` applies). -/
def insertByKey (p : String × Json) : List (String × Json) → List (String × Json)
  | [] => [p]
  | q :: rest => if strLt p.1 q.1 then p :: q :: rest else q :: insertByKey p rest

/-- Sort an association list by key (insertion sort). -/
def sortByKey : List (String × Json) → List (String × Json)
  | [] => []
  | p :: rest => insertByKey p (sortByKey rest)

mutual
/-- Recursively key-sort every object of a `Json` value — the shape
`json.dumps(v, sort_keys=True)` actually serialises. -/
def sortKeysRec : Json → Json
  | .null => .null
  | .bool b => .bool b
  | .num n => .num n
  | .str s => .str s
  | .arr items => .arr (sortKeysRecList items)
  | .obj entries => .obj (sortByKey (sortKeysRecEntries entries))

/-- `sortKeysRec` mapped over an array's elements. -/
def sortKeysRecList : List Json → List Json
  | [] => []
  | j :: rest => sortKeysRec j :: sortKeysRecList rest

/-- `sortKeysRec` mapped over an object's values. -/
def sortKeysRecEntries : List (String × Json) → List (String × Json)
  | [] => []
  | (k, v) :: rest => (k, sortKeysRec v) :: sortKeysRecEntries rest
end

/-! ## Audit logger (`forensicsense/utils/logging.py`, class `AuditLogger`)

An audit-log file is modelled as the list of its lines after `json.loads`:
`none` is a line that is not valid JSON, `some j` a parsed value.  The two
standard-library black boxes are parameters: `H` stands for
`hashlib.sha256(·.encode()).hexdigest()` and `dumps` for `json.dumps`
applied to an already key-sorted value (`sort_keys=True` is made explicit
through `sortKeysRec`).  A missing log file behaves like the empty list
(both verify trivially). -/

/-- A Python exception escaping uncaught from `verify_integrity`. -/
inductive PyErr where
  | keyError
  | attributeError
deriving DecidableEq

namespace AuditLogger

/-- The genesis previous-hash: 64 `'0'` characters. -/
def genesisHash : String := String.mk (List.replicate 64 '0')

/-- One iteration state of `AuditLogger.verify_integrity`: `n` lines have
been consumed so far, `prev` is the stored hash of the predecessor (the
genesis value initially).  Mirrors `logging.py` lines 100-126: the chain
check uses `entry.get("previous_hash")`, the hash check pops `"hash"` and
re-serialises the remainder key-sorted; a line that parses to a non-object
makes `.get` raise `AttributeError`, an object without a `"hash"` key makes
`.pop` raise `KeyError` — both uncaught by the `json.JSONDecodeError`
handler. -/
def verifyAux (H : String → String) (dumps : Json → String) :
    Nat → String → List (Option Json) → Except PyErr (Bool × String)
  | n, _, [] => .ok (true, s!"Audit log verified: {n} entries")
  | n, prev, line :: rest =>
    match line with
    | none => .ok (false, s!"Invalid JSON at line {n+1}")
    | some (.obj kvs) =>
      if Json.dictGet kvs "previous_hash" ≠ some (.str prev) then
        .ok (false, s!"Hash chain broken at line {n+1}")
      else
        match Json.dictPop kvs "hash" with
        | none => .error .keyError
        | some (stored, others) =>
          let chash := H (dumps (sortKeysRec (.obj others)))
          if stored ≠ .str chash then .ok (false, s!"Hash mismatch at line {n+1}")
          else verifyAux H dumps (n+1) chash rest
    | some _ => .error .attributeError

/-- `AuditLogger.verify_integrity` over the parsed lines of the log file. -/
def verify_integrity (H : String → String) (dumps : Json → String)
    (log : List (Option Json)) : Except PyErr (Bool × String) :=
  verifyAux H dumps 0 genesisHash log

/-- The claim's per-entry validity condition, as a single pass: every line
parses to an object whose stored `"hash"` equals the hash of the key-sorted
serialisation of the entry without its hash field, and whose
`"previous_hash"` equals the predecessor's stored hash (`prev`, the genesis
string for the first entry). -/
def chainOkB (H : String → String) (dumps : Json → String) :
    String → List (Option Json) → Bool
  | _, [] => true
  | prev, line :: rest =>
    match line with
    | some (.obj kvs) =>
      match Json.dictPop kvs "hash" with
      | none => false
      | some (stored, others) =>
        let chash := H (dumps (sortKeysRec (.obj others)))
        decide (Json.dictGet kvs "previous_hash" = some (.str prev)) &&
        decide (stored = .str chash) &&
        chainOkB H dumps chash rest
    | _ => false

/-- Modelled from the spec (refinement reference for the claim wording):
walk the stored records from the first line; at the first divergence stop
and report the failing line number together with the cause, distinguishing
a malformed record, a broken chain link, and a hash mismatch; otherwise
succeed with the entry count. -/
def auditVerdict (H : String → String) (dumps : Json → String) :
    Nat → String → List (Option Json) → Bool × String
  | n, _, [] => (true, s!"Audit log verified: {n} entries")
  | n, prev, line :: rest =>
    match line with
    | some (.obj kvs) =>
      match Json.dictPop kvs "hash" with
      | some (stored, others) =>
        if Json.dictGet kvs "previous_hash" ≠ some (.str prev) then
          (false, s!"Hash chain broken at line {n+1}")
        else
          let chash := H (dumps (sortKeysRec (.obj others)))
          if stored ≠ .str chash then (false, s!"Hash mismatch at line {n+1}")
          else auditVerdict H dumps (n+1) chash rest
      | none => (false, s!"Invalid JSON at line {n+1}")
    | _ => (false, s!"Invalid JSON at line {n+1}")

/-- A log line on which `verify_integrity` cannot raise: either the line
is not valid JSON (that is caught and reported as a malformed record), or
it parses to an object carrying a `"hash"` key.  Only a valid-JSON line
that is a non-object or an object without `"hash"` can make the
verification walk raise. -/
def lineSafeB : Option Json → Bool
  | none => true
  | some (.obj kvs) => (Json.dictPop kvs "hash").isSome
  | some _ => false

/-- Every line of the log that parses is an object with a `"hash"` key
(invalid-JSON lines are unrestricted). -/
def logSafeB (log : List (Option Json)) : Bool :=
  log.all lineSafeB

/-- `AuditLogger.log_action`: build the entry with `previous_hash := prev`,
hash its key-sorted serialisation without the `"hash"` field, and append
the completed record; returns the written record and its hash (the new
`_previous_hash`).  Entry keys follow the insertion order of
`logging.py` lines 66-79. -/
def log_action (H : String → String) (dumps : Json → String)
    (prev ts user target action result : String) (auth : Json) :
    List (String × Json) × String :=
  let base : List (String × Json) :=
    [("timestamp", .str ts), ("user", .str user), ("target", .str target),
     ("action", .str action), ("result", .str result), ("auth_token", auth),
     ("previous_hash", .str prev)]
  let h := H (dumps (sortKeysRec (.obj base)))
  (base ++ [("hash", .str h)], h)

end AuditLogger

/-! ## Evidence sealing (`forensicsense/utils/crypto.py`, class `EvidenceSealer`)

`seal_evidence` builds the envelope dict
`{"timestamp": ts, "data": data, "metadata": metadata or {}, "sealer_version": "1.0"}`,
hashes its key-sorted serialisation and wraps it with the seal record.
The serialiser and the digest are parameters `dumps : Json → σ` and
`H : σ → τ` standing for `json.dumps` (applied after the explicit
`sortKeysRec` canonicalisation that `sort_keys=True` performs) and for
SHA-256. -/

/-- Strictly increasing key list: sorted and duplicate-free, the shape of
keys of any dict produced by Python (`json.loads` collapses duplicates)
after key-sorting. -/
def keysSortedB : List (String × Json) → Bool
  | [] => true
  | [_] => true
  | (k1, _) :: (k2, v2) :: rest =>
    strLt k1 k2 && keysSortedB ((k2, v2) :: rest)

mutual
/-- A `Json` value is canonical when every object in it has a strictly
increasing key list — the normal form of Python dict values, on which
`sortKeysRec` is the identity. -/
def isCanonB : Json → Bool
  | .null => true
  | .bool _ => true
  | .num _ => true
  | .str _ => true
  | .arr items => isCanonList items
  | .obj entries => keysSortedB entries && isCanonEntries entries

/-- `isCanonB` over an array's elements. -/
def isCanonList : List Json → Bool
  | [] => true
  | j :: rest => isCanonB j && isCanonList rest

/-- `isCanonB` over an object's values. -/
def isCanonEntries : List (String × Json) → Bool
  | [] => true
  | (_, v) :: rest => isCanonB v && isCanonEntries rest
end

namespace EvidenceSealer

/-- The `seal` sub-dict of a sealed package. -/
structure SealInfo (τ : Type) where
  algorithm : String
  hash : τ
  sealed_at : String
deriving DecidableEq

/-- A well-formed sealed package as produced by `seal_evidence`. -/
structure Sealed (τ : Type) where
  evidence : Json
  sealInfo : SealInfo τ
deriving DecidableEq

/-- `metadata or {}` (line 33 of `crypto.py`): `None` falls back to the
empty dict. -/
def metaOr : Option Json → Json
  | none => .obj []
  | some m => m

/-- The evidence envelope, keys in the insertion order of `crypto.py`
lines 30-35. -/
def envelopeJson (ts : String) (data meta : Json) : Json :=
  .obj [("timestamp", .str ts), ("data", data), ("metadata", meta),
        ("sealer_version", .str "1.0")]

/-- `EvidenceSealer.seal_evidence` with the wall-clock timestamp made an
explicit argument `ts`. -/
def seal_evidence {σ τ : Type} (dumps : Json → σ) (H : σ → τ)
    (data : Json) (meta : Option Json) (ts : String) : Sealed τ :=
  let evidence := envelopeJson ts data (metaOr meta)
  { evidence := evidence,
    sealInfo := { algorithm := "sha256",
                  hash := H (dumps (sortKeysRec evidence)),
                  sealed_at := ts } }

/-- An arbitrary (possibly malformed) package handed to `verify_seal`:
`evidence = none` models a dict without an `"evidence"` key,
`seal = none` one without a `"seal"` key, and `seal = some none` a seal
sub-dict without a `"hash"` key — the accesses that raise
`KeyError`/`TypeError` inside the `try` of `crypto.py` lines 63-75. -/
structure RawPackage (τ : Type) where
  evidence : Option Json
  sealInfo : Option (Option τ)
deriving DecidableEq

/-- `EvidenceSealer.verify_seal`: recompute the hash over the envelope and
compare with the stored one; any missing structure is caught and yields
`False`. -/
def verify_seal {σ τ : Type} [DecidableEq τ] (dumps : Json → σ) (H : σ → τ)
    (pkg : RawPackage τ) : Bool :=
  match pkg.evidence, pkg.sealInfo with
  | some ev, some (some stored) =>
    if H (dumps (sortKeysRec ev)) = stored then true else false
  | _, _ => false

/-- View a well-formed sealed package as a raw one (all keys present). -/
def Sealed.toRaw {τ : Type} (s : Sealed τ) : RawPackage τ :=
  ⟨some s.evidence, some (some s.sealInfo.hash)⟩

end EvidenceSealer

/-! ## Port scanner (`forensicsense/intel/network_scanner.py`, class `NetworkScanner`)

A probe's interaction with the network is an explicit `ProbeOutcome`.
`decode` stands for `bytes.decode("utf-8", errors="ignore")` and
`svc` for `_get_service_name` (it wraps the system services database, so
its table is external input). -/

namespace NetworkScanner

/-- What the transport did for one `scan_port` call: the connection
attempt succeeded (with the byte stream the peer offers and whether the
bounded banner read completed), timed out, was refused, or failed with
another transport error. -/
inductive ProbeOutcome where
  | connected (stream : List Nat) (readOk : Bool)
  | timeout
  | refused
  | otherError (msg : String)
deriving DecidableEq

/-- One entry of the result list of `scan_port` (`network_scanner.py`
lines 33-38): the `"error"` key is added only in the catch-all branch. -/
structure PortResult where
  port : Nat
  state : String
  service : String
  banner : Option String
  error : Option String
deriving DecidableEq

/-- Python `str.strip()` whitespace predicate. -/
def pyIsSpace (c : Char) : Bool :=
  c = ' ' || c = '\t' || c = '\n' || c = '\r' || c = '\x0b' || c = '\x0c'

/-- Python `str.strip()`. -/
def pyStrip (s : String) : String :=
  String.mk (((s.toList.dropWhile pyIsSpace).reverse.dropWhile pyIsSpace).reverse)

/-- `NetworkScanner.scan_port`: classify one port.  On a successful
connection the banner read takes at most 1024 bytes (`reader.read(1024)`);
a failed or empty read leaves the banner unset and is not an error. -/
def scan_port (decode : List Nat → String) (svc : Nat → String)
    (port : Nat) (oc : ProbeOutcome) : PortResult :=
  match oc with
  | .connected stream readOk =>
    let bannerData := if readOk then stream.take 1024 else []
    { port := port, state := "open", service := svc port
      banner := if bannerData = [] then none else some (pyStrip (decode bannerData))
      error := none }
  | .timeout =>
    { port := port, state := "filtered", service := svc port, banner := none, error := none }
  | .refused =>
    { port := port, state := "closed", service := svc port, banner := none, error := none }
  | .otherError m =>
    { port := port, state := "error", service := svc port, banner := none, error := some m }

/-- `NetworkScanner.scan_ports`: one probe per requested port, results
collected per task slot (`asyncio.gather` keeps one slot per task, and the
`isinstance(r, dict)` filter drops nothing because `scan_port` catches all
its exceptions and always returns a dict). -/
def scan_ports (decode : List Nat → String) (svc : Nat → String)
    (ports : List Nat) (outcomes : Nat → ProbeOutcome) : List PortResult :=
  ports.map (fun p => scan_port decode svc p (outcomes p))

/-- The fixed common-port list of `quick_scan`
(`network_scanner.py` lines 117-120). -/
def common_ports : List Nat :=
  [21, 22, 23, 25, 53, 80, 110, 135, 139, 143, 443, 445,
   993, 995, 1433, 1521, 3306, 3389, 5432, 5900, 8080, 8443]

/-- `NetworkScanner.quick_scan`. -/
def quick_scan (decode : List Nat → String) (svc : Nat → String)
    (outcomes : Nat → ProbeOutcome) : List PortResult :=
  scan_ports decode svc common_ports outcomes

/-- `list(range(1, 1025))` of `full_scan`. -/
def all_ports : List Nat := List.range' 1 1024

/-- `NetworkScanner.full_scan`. -/
def full_scan (decode : List Nat → String) (svc : Nat → String)
    (outcomes : Nat → ProbeOutcome) : List PortResult :=
  scan_ports decode svc all_ports outcomes

end NetworkScanner

/-! ## OSINT aggregation (`forensicsense/intel/osint.py`, class `OSINTCollector`)

Each sub-query's interaction with its external service is an explicit
outcome value.  Each sub-collector catches its own exceptions, so the
`asyncio.gather(..., return_exceptions=True)` branches of `collect_osint`
that replace an exception (`osint.py` lines 192-195) are never taken. -/

namespace OSINTCollector

/-- `a = b` on prefixes of character lists. -/
def isPre : List Char → List Char → Bool
  | [], _ => true
  | _ :: _, [] => false
  | a :: as, b :: bs => a = b && isPre as bs

/-- Python `needle in hay` on strings (contiguous substring; the empty
needle is contained in everything). -/
def infixB (n : List Char) : List Char → Bool
  | [] => isPre n []
  | c :: t => isPre n (c :: t) || infixB n t

/-- `name.replace("*.", "")`: drop every non-overlapping occurrence of
`"*."`, scanning left to right. -/
def rsdAux : List Char → List Char
  | [] => []
  | '*' :: '.' :: rest => rsdAux rest
  | c :: rest => c :: rsdAux rest

/-- `name.replace("*.", "")` on strings. -/
def replaceStarDot (s : String) : String := String.mk (rsdAux s.toList)

/-- Insert into a code-point-sorted string list (for Python `sorted`). -/
def insertStr (x : String) : List String → List String
  | [] => [x]
  | y :: rest => if strLt x y then x :: y :: rest else y :: insertStr x rest

/-- Python `sorted` on a list of strings (insertion sort over the
code-point order). -/
def sortStrs : List String → List String
  | [] => []
  | x :: rest => insertStr x (sortStrs rest)

/-- `set.add`: membership-tested insertion. -/
def setAdd (s : List String) (x : String) : List String :=
  if x ∈ s then s else s ++ [x]

/-- The body of the `crt.sh` loop (`osint.py` lines 75-81) for one
`name_value` entry: skip empty names and names not containing the queried
domain, drop the `"*."` occurrences, skip the result if it became empty,
otherwise keep its stripped form. -/
def processName (domain name : String) : Option String :=
  if name ≠ "" && infixB domain.toList name.toList then
    let n := replaceStarDot name
    if n ≠ "" then some (NetworkScanner.pyStrip n) else none
  else none

/-- The `crt.sh` certificate-transparency response: a 200 reply with the
`name_value` string of each row (`entry.get("name_value", "")` supplies
`""` when the key is missing), a non-200 status, or a raised error. -/
inductive CrtOutcome where
  | success (rows : List String)
  | non200
  | failure
deriving DecidableEq

/-- One loop iteration of the subdomain collection: add the processed
name (if kept) to the set. -/
def addName (domain : String) (acc : List String) (name : String) : List String :=
  match processName domain name with
  | some x => setAdd acc x
  | none => acc

/-- `OSINTCollector.collect_subdomains_passive`: accumulate the processed
names into a set and return them sorted; a non-200 reply or a failure
leaves the set empty. -/
def collect_subdomains_passive (domain : String) (oc : CrtOutcome) : List String :=
  match oc with
  | .success rows => sortStrs (rows.foldl (addName domain) [])
  | .non200 => []
  | .failure => []

/-- The WHOIS lookup's outcome: the fields `collect_whois` copies out of
the `whois.whois` reply, or a raised error. -/
inductive WhoisOutcome where
  | ok (registrar creation expiration : Option String)
       (name_servers status : List String) (raw : String)
  | fail (msg : String)
deriving DecidableEq

/-- The result dict of `collect_whois` (`osint.py` lines 27-54): base
fields are `None`/empty, an `"error"` key is added only on failure. -/
structure WhoisResult where
  domain : String
  registrar : Option String
  creation_date : Option String
  expiration_date : Option String
  name_servers : List String
  status : List String
  raw : Option String
  error : Option String
deriving DecidableEq

/-- `OSINTCollector.collect_whois`. -/
def collect_whois (domain : String) (oc : WhoisOutcome) : WhoisResult :=
  match oc with
  | .ok r c e ns st raw =>
    { domain := domain, registrar := r, creation_date := c,
      expiration_date := e, name_servers := ns, status := st,
      raw := some raw, error := none }
  | .fail m =>
    { domain := domain, registrar := none, creation_date := none,
      expiration_date := none, name_servers := [], status := [],
      raw := none, error := some m }

/-- The Wayback-Machine CDX response: a 200 reply with its JSON rows
(first row is the header), a non-200 status, or a raised error. -/
inductive WaybackOutcome where
  | ok (rows : List (List String))
  | non200
  | failure
deriving DecidableEq

/-- `OSINTCollector.collect_wayback_urls`: first cell of every non-empty
row after the header, capped to the first 100; empty on non-200 or
failure. -/
def collect_wayback_urls (oc : WaybackOutcome) : List String :=
  (match oc with
   | .ok rows => (rows.drop 1).filterMap List.head?
   | .non200 => []
   | .failure => []).take 100

/-- The aggregate result of `collect_osint` (`osint.py` lines 190-196). -/
structure OsintResult where
  target : String
  whois : WhoisResult
  subdomains : List String
  historical_urls : List String
  subdomain_count : Nat
deriving DecidableEq

/-- `OSINTCollector.collect_osint`: the three sub-queries run in
isolation (concurrently in the source; their result slots are
independent) and are aggregated field by field. -/
def collect_osint (target : String) (w : WhoisOutcome) (s : CrtOutcome)
    (wb : WaybackOutcome) : OsintResult :=
  let subs := collect_subdomains_passive target s
  { target := target, whois := collect_whois target w, subdomains := subs,
    historical_urls := collect_wayback_urls wb, subdomain_count := subs.length }

end OSINTCollector

/-! ## Orchestrator (`forensicsense/intel/profiler.py`, class `TargetProfiler`)

`profile_target` is embedded as a pure function over explicit outcomes of
its collaborator calls (`StageStubs`), the two wall-clock readings
(`started_at`, `completed_at`) and the run parameters.  Besides the final
`TargetProfile` it yields the ordered trace of the observable steps: which
stage blocks ran, which profile fields they assigned, and when the
completion timestamp was set — the program-order facts the orchestrator
claims are about.  The inner detail of the fingerprint stage (per-port
loop, HTTP-port test) is abstracted into the fields of `FingerprintData`;
the vulnerability stage's two assignments are likewise driven by one
outcome value. -/

namespace TargetProfiler

/-- The pipeline stages of the design's state machine. -/
inductive StageName where
  | dns
  | scan
  | fingerprint
  | osint
  | risk
  | seal
deriving DecidableEq

/-- The mutable fields of `TargetProfile` that stages assign. -/
inductive ProfField where
  | dnsInfo
  | networkScan
  | services
  | httpFingerprint
  | discoveredPaths
  | osintData
  | vulnerabilities
  | riskAssessment
  | evidenceSealed
  | evidenceFiles
deriving DecidableEq

/-- One observable step of a profiling run, in program order. -/
inductive Event where
  | runStage (s : StageName)
  | wrote (f : ProfField)
  | setCompleted
deriving DecidableEq

/-- The `TargetProfile` dataclass (`profiler.py` lines 18-50) with its
default field values. -/
structure Profile where
  target : String
  profile_depth : String
  started_at : String
  completed_at : Option String := none
  dns_info : Json := .obj []
  network_scan : Json := .obj []
  services : List Json := []
  http_fingerprint : Json := .obj []
  discovered_paths : List Json := []
  osint : Json := .obj []
  vulnerabilities : List Json := []
  risk_assessment : Json := .obj []
  evidence_sealed : Bool := false
  evidence_files : List String := []
deriving DecidableEq

/-- What the fingerprint stage produced when it did not raise: the
service fingerprints appended for the open ports, the HTTP fingerprint
when an HTTP port was open, and the paths of the deep-only path probe. -/
structure FingerprintData where
  services : List Json
  httpFp : Option Json
  paths : List Json
deriving DecidableEq

/-- Outcomes of every collaborator call of one `profile_target` run.
`.error e` is the collaborator raising an exception with message `e`. -/
structure StageStubs where
  dns : Except String Json
  scan : Except String Json
  fingerprint : Except String FingerprintData
  osint : Except String Json
  risk : Except String (List Json × Json)
  save_all : Except String (List String)

/-- The `{"error": str(e)}` dict a failing stage records in its own
profile sub-section. -/
def errDict (e : String) : Json := .obj [("error", .str e)]

/-- `depth in [...]` membership tests of the stage gates. -/
def depthIn (depth : String) (l : List String) : Bool := l.contains depth

/-- Step 1 (`profiler.py` lines 119-127): `dns_info` is assigned in both
the success and the failure branch. -/
def dnsUpdate (p : Profile) : Except String Json → Profile
  | .ok v => { p with dns_info := v }
  | .error e => { p with dns_info := errDict e }

/-- Step 2 body (`profiler.py` lines 129-146). -/
def scanUpdate (p : Profile) : Except String Json → Profile
  | .ok v => { p with network_scan := v }
  | .error e => { p with network_scan := errDict e }

/-- Step 3 body (`profiler.py` lines 148-180): appends service
fingerprints, assigns the HTTP fingerprint when an HTTP port was open and,
only at depth `deep`, the probed paths; its exception handler assigns
nothing. -/
def fpUpdate (depth : String) (p : Profile) :
    Except String FingerprintData → Profile
  | .ok f =>
    let pa := { p with services := p.services ++ f.services }
    match f.httpFp with
    | some fp =>
      let pb := { pa with http_fingerprint := fp }
      if depth = "deep" then { pb with discovered_paths := f.paths } else pb
    | none => pa
  | .error _ => p

/-- The field-write events of step 3, in the program order of the source:
service appends, then the HTTP fingerprint, then the deep-only paths. -/
def fpEvents (depth : String) : Except String FingerprintData → List Event
  | .ok f =>
    [Event.runStage .fingerprint] ++
    (if f.services = [] then [] else [Event.wrote .services]) ++
    (match f.httpFp with
     | some _ =>
       [Event.wrote .httpFingerprint] ++
       (if depth = "deep" then [Event.wrote .discoveredPaths] else [])
     | none => [])
  | .error _ => [Event.runStage .fingerprint]

/-- Step 4 body (`profiler.py` lines 182-193). -/
def osintUpdate (p : Profile) : Except String Json → Profile
  | .ok v => { p with osint := v }
  | .error e => { p with osint := errDict e }

/-- Step 5 body (`profiler.py` lines 195-215), run for every depth: on
success both `vulnerabilities` and `risk_assessment` are assigned, on
failure only the `risk_assessment` error dict. -/
def riskUpdate (p : Profile) : Except String (List Json × Json) → Profile
  | .ok vr => { p with vulnerabilities := vr.1, risk_assessment := vr.2 }
  | .error e => { p with risk_assessment := errDict e }

/-- The field-write events of step 5. -/
def riskEvents : Except String (List Json × Json) → List Event
  | .ok _ => [Event.runStage .risk, Event.wrote .vulnerabilities, Event.wrote .riskAssessment]
  | .error _ => [Event.runStage .risk, Event.wrote .riskAssessment]

/-- The observable events of steps 1-5, in program order. -/
def pipeEvents (stubs : StageStubs) (depth : String) : List Event :=
  [Event.runStage .dns, Event.wrote .dnsInfo] ++
  (if depthIn depth ["standard", "full", "deep"]
   then [Event.runStage .scan, Event.wrote .networkScan] else []) ++
  (if depthIn depth ["full", "deep"] then fpEvents depth stubs.fingerprint else []) ++
  (if depthIn depth ["full", "deep"]
   then [Event.runStage .osint, Event.wrote .osintData] else []) ++
  riskEvents stubs.risk

/-- Steps 1-5 of `profile_target` up to and including setting
`completed_at` (`profiler.py` lines 119-218): every stage catches its own
failure and the pipeline always proceeds to the next requested stage. -/
def runPipeline (stubs : StageStubs) (target depth : String)
    (ts1 ts2 : String) : List Event × Profile :=
  let p0 : Profile := { target := target, profile_depth := depth, started_at := ts1 }
  let gate2 := depthIn depth ["standard", "full", "deep"]
  let gate34 := depthIn depth ["full", "deep"]
  let p1 := dnsUpdate p0 stubs.dns
  let p2 := if gate2 then scanUpdate p1 stubs.scan else p1
  let p3 := if gate34 then fpUpdate depth p2 stubs.fingerprint else p2
  let p4 := if gate34 then osintUpdate p3 stubs.osint else p3
  let p5 := riskUpdate p4 stubs.risk
  (pipeEvents stubs depth ++ [Event.setCompleted],
   { p5 with completed_at := some ts2 })

/-- `TargetProfiler.profile_target`: run the pipeline, then — when
evidence collection is enabled — seal the collected items
(`profiler.py` lines 220-231).  The sealing block has no handler: a
failing `save_all` propagates and no profile is returned. -/
def profile_target (stubs : StageStubs) (target depth : String)
    (collectEvidence : Bool) (ts1 ts2 : String) :
    List Event × Except String Profile :=
  let r := runPipeline stubs target depth ts1 ts2
  if collectEvidence then
    match stubs.save_all with
    | .ok files =>
      (r.1 ++ [Event.runStage .seal, Event.wrote .evidenceSealed, Event.wrote .evidenceFiles],
       .ok { r.2 with evidence_sealed := true, evidence_files := files })
    | .error e => (r.1 ++ [Event.runStage .seal], .error e)
  else (r.1, .ok r.2)

/-- Modelled from the spec (the depth table of section 4.6): the stages a
depth requests; an unrecognised depth requests only DNS. -/
def requestedStages (depth : String) : List StageName :=
  if depth = "basic" then [.dns]
  else if depth = "standard" then [.dns, .scan]
  else if depth = "full" then [.dns, .scan, .fingerprint, .osint, .risk]
  else if depth = "deep" then [.dns, .scan, .fingerprint, .osint, .risk]
  else [.dns]

/-- The events strictly after the first `setCompleted` of a trace. -/
def afterCompleted (tr : List Event) : List Event :=
  (tr.dropWhile (fun e => e ≠ Event.setCompleted)).drop 1

/-- The events strictly before the first `setCompleted` of a trace. -/
def beforeCompleted (tr : List Event) : List Event :=
  tr.takeWhile (fun e => e ≠ Event.setCompleted)

/-- `profile.dns_info["a_records"]`. -/
def aRecords (j : Json) : Option Json :=
  match j with
  | .obj kvs => Json.dictGet kvs "a_records"
  | _ => none

end TargetProfiler

/-! ## Concrete fixtures used by witnesses and counterexamples -/

/-- A `resolve_target`-shaped DNS reply for `example.com` with one
A record, as the specification's scenario stubs it. -/
def dnsJsonEx : Json :=
  .obj [("target", .str "example.com"), ("is_ip", .bool false),
        ("is_domain", .bool true), ("a_records", .arr [.str "93.184.216.34"]),
        ("aaaa_records", .arr []), ("mx_records", .arr []),
        ("txt_records", .arr []), ("ns_records", .arr []),
        ("cname_records", .arr [])]

/-- A run in which every collaborator call succeeds. -/
def stubsOk : TargetProfiler.StageStubs :=
  { dns := .ok dnsJsonEx, scan := .ok (.obj []),
    fingerprint := .ok ⟨[], none, []⟩, osint := .ok (.obj []),
    risk := .ok ([], .obj [("score", .num 0)]),
    save_all := .ok ["evidence/dns.sealed"] }

/-- The same run except that sealing the collected evidence fails. -/
def stubsSealFail : TargetProfiler.StageStubs :=
  { stubsOk with save_all := .error "disk full" }

/-- A trivial byte decoder for scanner witnesses. -/
def decode0 : List Nat → String := fun _ => "SSH-2.0-OpenSSH"

/-- A fixed service-name table for scanner witnesses. -/
def svc0 : Nat → String := fun p => if p = 22 then "ssh" else "unknown"

/-- Port 22 connects and offers a banner, every other port refuses. -/
def outcomes0 : Nat → NetworkScanner.ProbeOutcome :=
  fun p => if p = 22 then .connected [83, 83, 72] true else .refused

/-- A well-formed audit-log line whose hash field matches the constant
digest `fun _ => "h"` used in the audit witnesses. -/
def goodLine : Option Json :=
  some (.obj [("hash", .str "h"), ("previous_hash", .str AuditLogger.genesisHash)])

/-- A healthy WHOIS reply for the OSINT fixtures. -/
def whoisOk0 : OSINTCollector.WhoisOutcome :=
  .ok (some "R") (some "2020-01-01") (some "2030-01-01")
    ["ns1.example.com"] ["clientTransferProhibited"] "raw whois"

/-- A healthy Wayback CDX reply (header row plus one URL row). -/
def wayback0 : OSINTCollector.WaybackOutcome :=
  .ok [["original"], ["http://example.com/a"]]

end ForensicSense

namespace ForensicSense

/-! ## Theorems -/

/-- C6 counterexample: the fixed common-port list of `quick_scan` has 22
entries, not the 21 the claim states. -/
theorem quick_scan_common_list_not_21 :
    ¬ (NetworkScanner.common_ports.length = 21) := by decide

/-- C6 (amended): `quick_scan` always probes the fixed 22-entry
common-port list, and `full_scan` always probes exactly the ports 1
through 1024. -/
theorem quick_full_scan_port_lists :
    NetworkScanner.common_ports.length = 22 ∧
    (∀ decode svc outcomes, NetworkScanner.quick_scan decode svc outcomes =
       NetworkScanner.scan_ports decode svc NetworkScanner.common_ports outcomes) ∧
    (∀ p : Nat, p ∈ NetworkScanner.all_ports ↔ 1 ≤ p ∧ p ≤ 1024) ∧
    (∀ decode svc outcomes, NetworkScanner.full_scan decode svc outcomes =
       NetworkScanner.scan_ports decode svc NetworkScanner.all_ports outcomes) := by
  refine ⟨by decide, fun _ _ _ => rfl, ?_, fun _ _ _ => rfl⟩
  intro p
  simp only [NetworkScanner.all_ports, List.mem_range'_1]
  omega

/-- C6 witness: the amended theorem evaluated on concrete data. -/
theorem quick_full_scan_port_lists_witness :
    NetworkScanner.common_ports.length = 22 ∧
    (7 ∈ NetworkScanner.all_ports ↔ 1 ≤ 7 ∧ 7 ≤ 1024) :=
  ⟨quick_full_scan_port_lists.1, quick_full_scan_port_lists.2.2.1 7⟩

/-- C5: `scan_ports` yields exactly one result per requested port (in
request order), every state is one of open/closed/filtered/error, and the
states are assigned as the claim says: connect success yields `"open"`
(the banner read is bounded to the first 1024 bytes and an empty or failed
read is not an error), connect timeout yields `"filtered"`, connection
refused yields `"closed"`, and any other transport error yields `"error"`
with the message captured. -/
theorem scan_ports_classification (decode : List Nat → String)
    (svc : Nat → String) (ports : List Nat)
    (outcomes : Nat → NetworkScanner.ProbeOutcome) :
    ((NetworkScanner.scan_ports decode svc ports outcomes).map
        (fun r => r.port) = ports) ∧
    (∀ r ∈ NetworkScanner.scan_ports decode svc ports outcomes,
       r.state = "open" ∨ r.state = "closed" ∨ r.state = "filtered" ∨
       r.state = "error") ∧
    (∀ p stream readOk,
       (NetworkScanner.scan_port decode svc p (.connected stream readOk)).state = "open" ∧
       NetworkScanner.scan_port decode svc p (.connected stream readOk) =
         NetworkScanner.scan_port decode svc p (.connected (stream.take 1024) readOk)) ∧
    (∀ p, (NetworkScanner.scan_port decode svc p .timeout).state = "filtered") ∧
    (∀ p, (NetworkScanner.scan_port decode svc p .refused).state = "closed") ∧
    (∀ p m, (NetworkScanner.scan_port decode svc p (.otherError m)).state = "error" ∧
       (NetworkScanner.scan_port decode svc p (.otherError m)).error = some m) := by
  have hport : ∀ p oc, (NetworkScanner.scan_port decode svc p oc).port = p := by
    intro p oc; cases oc <;> rfl
  refine ⟨?_, ?_, ?_, fun _ => rfl, fun _ => rfl, fun _ _ => ⟨rfl, rfl⟩⟩
  · rw [NetworkScanner.scan_ports, List.map_map]
    have : ((fun r => NetworkScanner.PortResult.port r) ∘
        fun p => NetworkScanner.scan_port decode svc p (outcomes p)) = fun p => p := by
      funext p; exact hport p (outcomes p)
    rw [this]
    exact List.map_id ports
  · intro r hr
    rw [NetworkScanner.scan_ports, List.mem_map] at hr
    obtain ⟨p, _, rfl⟩ := hr
    cases outcomes p <;> simp [NetworkScanner.scan_port]
  · intro p stream readOk
    refine ⟨rfl, ?_⟩
    cases readOk <;> simp [NetworkScanner.scan_port, List.take_take]

/-! ### Helper lemmas for the audit-log claim -/

open AuditLogger in
theorem verifyAux_eq_verdict (H : String → String) (dumps : Json → String) :
    ∀ (log : List (Option Json)) (n : Nat) (prev : String),
      log.all AuditLogger.lineSafeB = true →
      AuditLogger.verifyAux H dumps n prev log =
        Except.ok (AuditLogger.auditVerdict H dumps n prev log) := by
  intro log
  induction log with
  | nil => intro n prev _; rfl
  | cons line rest ih =>
    intro n prev h
    have hl : AuditLogger.lineSafeB line = true ∧
        rest.all AuditLogger.lineSafeB = true := by simpa using h
    rcases line with _ | j
    · rfl
    · cases j with
      | obj kvs =>
        cases hpop : Json.dictPop kvs "hash" with
        | none =>
          rw [AuditLogger.lineSafeB, hpop] at hl
          simp at hl
        | some pr =>
          obtain ⟨stored, others⟩ := pr
          simp only [AuditLogger.verifyAux, AuditLogger.auditVerdict, hpop]
          split
          · rfl
          · split
            · rfl
            · exact ih (n + 1) _ hl.2
      | null => simp [AuditLogger.lineSafeB] at hl
      | bool b => simp [AuditLogger.lineSafeB] at hl
      | num m => simp [AuditLogger.lineSafeB] at hl
      | str s => simp [AuditLogger.lineSafeB] at hl
      | arr items => simp [AuditLogger.lineSafeB] at hl

open AuditLogger in
theorem verdict_true_iff_chain (H : String → String) (dumps : Json → String) :
    ∀ (log : List (Option Json)) (n : Nat) (prev : String),
      ((AuditLogger.auditVerdict H dumps n prev log).1 = true ↔
        AuditLogger.chainOkB H dumps prev log = true) := by
  intro log
  induction log with
  | nil => intro n prev; simp [AuditLogger.auditVerdict, AuditLogger.chainOkB]
  | cons line rest ih =>
    intro n prev
    rcases line with _ | j
    · simp [AuditLogger.auditVerdict, AuditLogger.chainOkB]
    · cases j with
      | obj kvs =>
        cases hpop : Json.dictPop kvs "hash" with
        | none => simp [AuditLogger.auditVerdict, AuditLogger.chainOkB, hpop]
        | some pr =>
          obtain ⟨stored, others⟩ := pr
          by_cases hc : Json.dictGet kvs "previous_hash" = some (.str prev)
          · by_cases hs : stored = Json.str (H (dumps (sortKeysRec (.obj others))))
            · simp [AuditLogger.auditVerdict, AuditLogger.chainOkB, hpop, hc, hs,
                ih (n + 1)]
            · simp [AuditLogger.auditVerdict, AuditLogger.chainOkB, hpop, hc, hs]
          · simp [AuditLogger.auditVerdict, AuditLogger.chainOkB, hpop, hc]
      | null => simp [AuditLogger.auditVerdict, AuditLogger.chainOkB]
      | bool b => simp [AuditLogger.auditVerdict, AuditLogger.chainOkB]
      | num m => simp [AuditLogger.auditVerdict, AuditLogger.chainOkB]
      | str s => simp [AuditLogger.auditVerdict, AuditLogger.chainOkB]
      | arr items => simp [AuditLogger.auditVerdict, AuditLogger.chainOkB]

/-! ### C1 -/

open AuditLogger in
/-- C1 counterexample: a line that parses to an object satisfying the
chain check but carrying no `"hash"` key makes `verify_integrity` raise
`KeyError` (the `entry.pop("hash")` at `logging.py` line 114 is outside
the `json.JSONDecodeError` handler) instead of stopping with a reported
line number and cause, as the claim requires for every audit log. -/
theorem verify_integrity_raises_on_missing_hash :
    AuditLogger.verify_integrity (fun s => s) (fun _ => "")
      [some (.obj [("previous_hash", .str AuditLogger.genesisHash)])] =
      Except.error PyErr.keyError := rfl

open AuditLogger in
/-- C1 (amended): on logs whose every valid-JSON line is an object
carrying a `"hash"` key — lines that are not valid JSON remain allowed
and are reported as malformed records — `verify_integrity` returns
exactly the verdict described by the claim: walking the stored lines in
order, stopping at the first divergence and reporting its line number
with the distinguishing cause (invalid JSON, broken chain link, or hash
mismatch), and that verdict succeeds iff every line parses, every stored
hash equals the digest of the key-sorted serialisation of the entry
without its hash field, and every `previous_hash` equals its
predecessor's stored hash (the 64-zero genesis string for the first
entry). -/
theorem audit_verify_integrity_reports (H : String → String)
    (dumps : Json → String) (log : List (Option Json))
    (hwf : AuditLogger.logSafeB log = true) :
    AuditLogger.verify_integrity H dumps log =
      Except.ok (AuditLogger.auditVerdict H dumps 0 AuditLogger.genesisHash log) ∧
    ((AuditLogger.auditVerdict H dumps 0 AuditLogger.genesisHash log).1 = true ↔
      AuditLogger.chainOkB H dumps AuditLogger.genesisHash log = true) :=
  ⟨verifyAux_eq_verdict H dumps log 0 AuditLogger.genesisHash hwf,
   verdict_true_iff_chain H dumps log 0 AuditLogger.genesisHash⟩

open AuditLogger in
/-- C1 witness: the reporting theorem on a two-line log — a well-formed
entry followed by an invalid-JSON line — under the constant digest; the
hypothesis allows the malformed line, which the verdict reports. -/
theorem audit_verify_integrity_reports_witness :
    AuditLogger.verify_integrity (fun s => s) (fun _ => "h") [goodLine, none] =
      Except.ok (AuditLogger.auditVerdict (fun s => s) (fun _ => "h") 0
        AuditLogger.genesisHash [goodLine, none]) ∧
    ((AuditLogger.auditVerdict (fun s => s) (fun _ => "h") 0
        AuditLogger.genesisHash [goodLine, none]).1 = true ↔
      AuditLogger.chainOkB (fun s => s) (fun _ => "h")
        AuditLogger.genesisHash [goodLine, none] = true) :=
  audit_verify_integrity_reports (fun s => s) (fun _ => "h") [goodLine, none]
    (by decide)

/-! ### Helper lemmas for the sealing claims -/

theorem dictGet_dictSet (k : String) (v v' : Json) :
    ∀ kvs, Json.dictGet kvs k = some v →
      Json.dictGet (Json.dictSet kvs k v') k = some v' := by
  intro kvs
  induction kvs with
  | nil => intro h; simp [Json.dictGet] at h
  | cons p rest ih =>
    obtain ⟨k1, w⟩ := p
    intro h
    by_cases hk : k1 = k
    · simp [Json.dictGet, Json.dictSet, hk]
    · simp only [Json.dictGet, Json.dictSet, if_neg hk] at h ⊢
      exact ih h

theorem dictSet_cons_head (k : String) (v' : Json) (k2 : String) (w2 : Json)
    (rest : List (String × Json)) :
    ∃ x, Json.dictSet ((k2, w2) :: rest) k v' =
      (k2, x) :: Json.dictSet rest k v' := by
  rw [Json.dictSet]
  split
  · exact ⟨v', rfl⟩
  · exact ⟨w2, rfl⟩

theorem keysSortedB_dictSet (k : String) (v' : Json) :
    ∀ kvs, keysSortedB kvs = true → keysSortedB (Json.dictSet kvs k v') = true := by
  intro kvs
  induction kvs with
  | nil => exact fun _ => rfl
  | cons p rest ih =>
    obtain ⟨k1, w⟩ := p
    intro h
    cases rest with
    | nil =>
      rw [Json.dictSet]
      split <;> simp [Json.dictSet, keysSortedB]
    | cons q rest2 =>
      obtain ⟨k2, w2⟩ := q
      have hparts : strLt k1 k2 = true ∧ keysSortedB ((k2, w2) :: rest2) = true := by
        simpa [keysSortedB] using h
      have ih2 := ih hparts.2
      obtain ⟨x2, hx2⟩ := dictSet_cons_head k v' k2 w2 rest2
      rw [hx2] at ih2
      rw [Json.dictSet]
      split <;> simp [hx2, keysSortedB, hparts.1, ih2]

theorem isCanonEntries_dictSet (k : String) (v' : Json)
    (hv' : isCanonB v' = true) :
    ∀ kvs, isCanonEntries kvs = true →
      isCanonEntries (Json.dictSet kvs k v') = true := by
  intro kvs
  induction kvs with
  | nil => exact fun _ => rfl
  | cons p rest ih =>
    obtain ⟨k1, w⟩ := p
    intro h
    have hparts : isCanonB w = true ∧ isCanonEntries rest = true := by
      simpa [isCanonEntries] using h
    rw [Json.dictSet]
    split <;> simp [isCanonEntries, hv', hparts.1, ih hparts.2]

theorem keysSortedB_tail (p : String × Json) (l : List (String × Json))
    (h : keysSortedB (p :: l) = true) : keysSortedB l = true := by
  cases l with
  | nil => rfl
  | cons q rest =>
    obtain ⟨k1, w1⟩ := p
    obtain ⟨k2, w2⟩ := q
    have hparts : strLt k1 k2 = true ∧ keysSortedB ((k2, w2) :: rest) = true := by
      simpa [keysSortedB] using h
    exact hparts.2

theorem insertByKey_of_sorted (p : String × Json) (l : List (String × Json))
    (h : keysSortedB (p :: l) = true) : insertByKey p l = p :: l := by
  cases l with
  | nil => rfl
  | cons q rest =>
    obtain ⟨k1, w1⟩ := p
    obtain ⟨k2, w2⟩ := q
    have hparts : strLt k1 k2 = true ∧ keysSortedB ((k2, w2) :: rest) = true := by
      simpa [keysSortedB] using h
    simp [insertByKey, hparts.1]

theorem sortByKey_sorted_id :
    ∀ l, keysSortedB l = true → sortByKey l = l := by
  intro l
  induction l with
  | nil => exact fun _ => rfl
  | cons p rest ih =>
    intro h
    rw [sortByKey, ih (keysSortedB_tail p rest h)]
    exact insertByKey_of_sorted p rest h

mutual
/-- `sortKeysRec` is the identity on canonical values. -/
theorem sortKeysRec_canon_id : ∀ j, isCanonB j = true → sortKeysRec j = j
  | .null, _ => rfl
  | .bool _, _ => rfl
  | .num _, _ => rfl
  | .str _, _ => rfl
  | .arr items, h => by
    rw [sortKeysRec, sortKeysRecList_canon_id items (by simpa [isCanonB] using h)]
  | .obj entries, h => by
    have hparts : keysSortedB entries = true ∧ isCanonEntries entries = true := by
      simpa [isCanonB] using h
    rw [sortKeysRec, sortKeysRecEntries_canon_id entries hparts.2,
      sortByKey_sorted_id entries hparts.1]

/-- `sortKeysRecList` is the identity on canonical arrays. -/
theorem sortKeysRecList_canon_id : ∀ l, isCanonList l = true → sortKeysRecList l = l
  | [], _ => rfl
  | j :: rest, h => by
    have hparts : isCanonB j = true ∧ isCanonList rest = true := by
      simpa [isCanonList] using h
    rw [sortKeysRecList, sortKeysRec_canon_id j hparts.1,
      sortKeysRecList_canon_id rest hparts.2]

/-- `sortKeysRecEntries` is the identity on canonical entry lists. -/
theorem sortKeysRecEntries_canon_id :
    ∀ l, isCanonEntries l = true → sortKeysRecEntries l = l
  | [], _ => rfl
  | (k, v) :: rest, h => by
    have hparts : isCanonB v = true ∧ isCanonEntries rest = true := by
      simpa [isCanonEntries] using h
    rw [sortKeysRecEntries, sortKeysRec_canon_id v hparts.1,
      sortKeysRecEntries_canon_id rest hparts.2]
end

open EvidenceSealer in
theorem sortKeysRec_envelope (ts : String) (d m : Json) :
    sortKeysRec (envelopeJson ts d m) =
      Json.obj [("data", sortKeysRec d), ("metadata", sortKeysRec m),
                ("sealer_version", .str "1.0"), ("timestamp", .str ts)] := rfl

/-! ### C10 -/

open EvidenceSealer in
/-- C10: `verify_seal` applied to an unmodified `seal_evidence` output
returns `True`, and on any package missing the `"evidence"` or `"seal"`
structure (or a seal without its `"hash"`) it returns `False` instead of
raising — the `except (KeyError, TypeError)` handler catches the access. -/
theorem verify_seal_roundtrip {σ τ : Type} [DecidableEq τ] (dumps : Json → σ)
    (H : σ → τ) (data : Json) (meta : Option Json) (ts : String) :
    verify_seal dumps H (Sealed.toRaw (seal_evidence dumps H data meta ts)) = true ∧
    (∀ pkg : RawPackage τ, pkg.evidence = none → verify_seal dumps H pkg = false) ∧
    (∀ pkg : RawPackage τ, pkg.sealInfo = none → verify_seal dumps H pkg = false) ∧
    (∀ pkg : RawPackage τ, pkg.sealInfo = some none →
       verify_seal dumps H pkg = false) := by
  refine ⟨?_, ?_, ?_, ?_⟩
  · simp [verify_seal, seal_evidence, Sealed.toRaw]
  · rintro ⟨ev, si⟩ h
    cases h
    rcases si with _ | s
    · rfl
    · rcases s with _ | t <;> rfl
  · rintro ⟨ev, si⟩ h
    cases h
    cases ev <;> rfl
  · rintro ⟨ev, si⟩ h
    cases h
    cases ev <;> rfl

open EvidenceSealer in
/-- C10 witness: the round trip and a package with a missing envelope,
evaluated at the identity serialiser and digest. -/
theorem verify_seal_roundtrip_witness :
    EvidenceSealer.verify_seal (fun j : Json => j) (fun s : Json => s)
      (EvidenceSealer.Sealed.toRaw (EvidenceSealer.seal_evidence
        (fun j : Json => j) (fun s : Json => s) (.str "payload") none "T")) = true ∧
    EvidenceSealer.verify_seal (fun j : Json => j) (fun s : Json => s)
      (⟨none, some (some (.str "h"))⟩ : EvidenceSealer.RawPackage Json) = false :=
  ⟨(verify_seal_roundtrip (fun j : Json => j) (fun s : Json => s)
      (.str "payload") none "T").1,
   (verify_seal_roundtrip (fun j : Json => j) (fun s : Json => s)
      (.str "payload") none "T").2.1 ⟨none, some (some (.str "h"))⟩ rfl⟩

/-! ### C8 -/

open EvidenceSealer in
/-- C8: for a fixed timestamp `seal_evidence` is deterministic, and —
granted that the serialiser and the digest are injective, which is what
`json.dumps` over canonical values and collision-free SHA-256 provide —
changing the value bound to any key of a canonical `data` dict changes the
sealed hash. -/
theorem seal_evidence_deterministic_data_sensitive {σ τ : Type}
    (dumps : Json → σ) (H : σ → τ)
    (hdumps : Function.Injective dumps) (hH : Function.Injective H)
    (kvs : List (String × Json)) (k : String) (v v' : Json)
    (meta : Option Json) (ts : String)
    (hcanon : isCanonB (Json.obj kvs) = true) (hv' : isCanonB v' = true)
    (hget : Json.dictGet kvs k = some v) (hne : v' ≠ v) :
    seal_evidence dumps H (Json.obj kvs) meta ts =
      seal_evidence dumps H (Json.obj kvs) meta ts ∧
    (seal_evidence dumps H (Json.obj (Json.dictSet kvs k v')) meta ts).sealInfo.hash ≠
      (seal_evidence dumps H (Json.obj kvs) meta ts).sealInfo.hash := by
  refine ⟨rfl, ?_⟩
  intro heq
  have hobjparts : keysSortedB kvs = true ∧ isCanonEntries kvs = true := by
    simpa [isCanonB] using hcanon
  have hcanon' : isCanonB (Json.obj (Json.dictSet kvs k v')) = true := by
    rw [isCanonB]
    simp [keysSortedB_dictSet k v' kvs hobjparts.1,
      isCanonEntries_dictSet k v' hv' kvs hobjparts.2]
  have h1 : sortKeysRec (envelopeJson ts (Json.obj (Json.dictSet kvs k v')) (metaOr meta)) =
      sortKeysRec (envelopeJson ts (Json.obj kvs) (metaOr meta)) :=
    hdumps (hH heq)
  rw [sortKeysRec_envelope, sortKeysRec_envelope,
    sortKeysRec_canon_id _ hcanon', sortKeysRec_canon_id _ hcanon] at h1
  have h2 : Json.dictSet kvs k v' = kvs := by
    have h1' := h1
    simp only [Json.obj.injEq, List.cons.injEq, Prod.mk.injEq] at h1'
    tauto
  have h3 : Json.dictGet (Json.dictSet kvs k v') k = some v' :=
    dictGet_dictSet k v v' kvs hget
  rw [h2, hget] at h3
  exact hne (Option.some_injective _ h3.symm)

open EvidenceSealer in
/-- C8 witness: the theorem instantiated at the identity serialiser and
digest, a one-key canonical dict and a changed value. -/
theorem seal_evidence_deterministic_data_sensitive_witness :
    (EvidenceSealer.seal_evidence (fun j : Json => j) (fun s : Json => s)
        (Json.obj (Json.dictSet [("k", Json.str "a")] "k" (Json.str "b")))
        none "T").sealInfo.hash ≠
      (EvidenceSealer.seal_evidence (fun j : Json => j) (fun s : Json => s)
        (Json.obj [("k", Json.str "a")]) none "T").sealInfo.hash :=
  (seal_evidence_deterministic_data_sensitive (fun j : Json => j)
    (fun s : Json => s) (fun _ _ h => h) (fun _ _ h => h)
    [("k", Json.str "a")] "k" (Json.str "a") (Json.str "b") none "T"
    (by decide) (by decide) (by decide) (by decide)).2

/-! ### Helper lemmas for the OSINT claims -/

open OSINTCollector in
theorem insertStr_perm (x : String) (l : List String) :
    List.Perm (OSINTCollector.insertStr x l) (x :: l) := by
  induction l with
  | nil => simp [OSINTCollector.insertStr]
  | cons y ys ih =>
    rw [OSINTCollector.insertStr]
    split
    · exact List.Perm.refl _
    · exact (List.Perm.cons y ih).trans (List.Perm.swap x y ys)

open OSINTCollector in
theorem sortStrs_perm (l : List String) :
    List.Perm (OSINTCollector.sortStrs l) l := by
  induction l with
  | nil => simp [OSINTCollector.sortStrs]
  | cons x xs ih =>
    rw [OSINTCollector.sortStrs]
    exact (insertStr_perm x _).trans (List.Perm.cons x ih)

open OSINTCollector in
theorem mem_setAdd (s : List String) (x a : String) :
    a ∈ OSINTCollector.setAdd s x ↔ a = x ∨ a ∈ s := by
  rw [OSINTCollector.setAdd]
  split
  · rename_i hx
    constructor
    · exact fun h => Or.inr h
    · rintro (rfl | h)
      · exact hx
      · exact h
  · simp [List.mem_append, or_comm]

open OSINTCollector in
theorem nodup_setAdd (s : List String) (x : String) (h : s.Nodup) :
    (OSINTCollector.setAdd s x).Nodup := by
  rw [OSINTCollector.setAdd]
  split
  · exact h
  · rename_i hx
    simp [List.nodup_append, h, hx]

open OSINTCollector in
theorem mem_foldl_addName (domain : String) (rows : List String) :
    ∀ (acc : List String) (a : String),
      a ∈ rows.foldl (OSINTCollector.addName domain) acc ↔
        a ∈ acc ∨ ∃ raw ∈ rows, OSINTCollector.processName domain raw = some a := by
  induction rows with
  | nil => simp
  | cons r rs ih =>
    intro acc a
    rw [List.foldl_cons, ih]
    cases hp : OSINTCollector.processName domain r with
    | none =>
      simp only [OSINTCollector.addName, hp, List.mem_cons]
      constructor
      · rintro (h | ⟨raw, hraw, hpr⟩)
        · exact Or.inl h
        · exact Or.inr ⟨raw, Or.inr hraw, hpr⟩
      · rintro (h | ⟨raw, rfl | hraw, hpr⟩)
        · exact Or.inl h
        · rw [hp] at hpr; cases hpr
        · exact Or.inr ⟨raw, hraw, hpr⟩
    | some x =>
      simp only [OSINTCollector.addName, hp, mem_setAdd, List.mem_cons]
      constructor
      · rintro ((rfl | h) | ⟨raw, hraw, hpr⟩)
        · exact Or.inr ⟨r, Or.inl rfl, hp⟩
        · exact Or.inl h
        · exact Or.inr ⟨raw, Or.inr hraw, hpr⟩
      · rintro (h | ⟨raw, rfl | hraw, hpr⟩)
        · exact Or.inl (Or.inr h)
        · rw [hp] at hpr
          exact Or.inl (Or.inl (Option.some_injective _ hpr).symm)
        · exact Or.inr ⟨raw, hraw, hpr⟩

open OSINTCollector in
theorem nodup_foldl_addName (domain : String) (rows : List String) :
    ∀ acc : List String, acc.Nodup →
      (rows.foldl (OSINTCollector.addName domain) acc).Nodup := by
  induction rows with
  | nil => exact fun acc h => h
  | cons r rs ih =>
    intro acc h
    rw [List.foldl_cons]
    refine ih _ ?_
    rw [OSINTCollector.addName]
    cases OSINTCollector.processName domain r with
    | none => exact h
    | some x => exact nodup_setAdd acc x h

/-! ### C9 -/

open OSINTCollector in
/-- C9 counterexample: the dedup key is not lowercased — two subdomain
names differing only in case both survive (`osint.py` adds
`name.strip()` to the set without `.lower()`). -/
theorem subdomain_dedup_case_sensitive :
    OSINTCollector.collect_subdomains_passive "example.com"
      (.success ["Sub.example.com", "sub.example.com"]) =
      ["Sub.example.com", "sub.example.com"] := by decide

open OSINTCollector in
/-- C9 (amended): the returned subdomain list is duplicate-free and
contains exactly the names obtained by taking each raw `name_value` that
is non-empty and contains the domain, removing every occurrence of the
substring `"*."` (not only a leading wildcard label), requiring the result
non-empty, and stripping whitespace; the key is case-sensitive. -/
theorem collect_subdomains_dedup (domain : String) (rows : List String) :
    (OSINTCollector.collect_subdomains_passive domain (.success rows)).Nodup ∧
    (∀ a, a ∈ OSINTCollector.collect_subdomains_passive domain (.success rows) ↔
       ∃ raw ∈ rows, OSINTCollector.processName domain raw = some a) := by
  constructor
  · rw [OSINTCollector.collect_subdomains_passive]
    exact (sortStrs_perm _).nodup_iff.mpr
      (nodup_foldl_addName domain rows [] List.nodup_nil)
  · intro a
    rw [OSINTCollector.collect_subdomains_passive]
    rw [(sortStrs_perm _).mem_iff, mem_foldl_addName]
    simp

open OSINTCollector in
/-- C9 witness: a wildcard variant and its plain form collapse to one
duplicate-free entry. -/
theorem collect_subdomains_dedup_witness :
    (OSINTCollector.collect_subdomains_passive "example.com"
        (.success ["*.sub.example.com", "sub.example.com"])).Nodup ∧
    ("sub.example.com" ∈ OSINTCollector.collect_subdomains_passive "example.com"
        (.success ["*.sub.example.com", "sub.example.com"]) ↔
      ∃ raw ∈ ["*.sub.example.com", "sub.example.com"],
        OSINTCollector.processName "example.com" raw = some "sub.example.com") :=
  ⟨(collect_subdomains_dedup "example.com" ["*.sub.example.com", "sub.example.com"]).1,
   (collect_subdomains_dedup "example.com" ["*.sub.example.com", "sub.example.com"]).2
     "sub.example.com"⟩

/-! ### C7 -/

open OSINTCollector in
/-- C7 counterexample: when the certificate-transparency sub-query fails,
its field carries no error marker at all — the output is identical to a
successful query that found nothing, while the claim promises an error
marker in the failing sub-query's field. -/
theorem osint_subquery_failure_leaves_no_marker :
    OSINTCollector.collect_osint "example.com" whoisOk0 .failure wayback0 =
      OSINTCollector.collect_osint "example.com" whoisOk0 (.success []) wayback0 ∧
    (OSINTCollector.collect_osint "example.com" whoisOk0 .failure wayback0).subdomains = [] ∧
    (OSINTCollector.collect_osint "example.com" whoisOk0 .failure wayback0).whois.error = none :=
  ⟨rfl, rfl, rfl⟩

open OSINTCollector in
/-- C7 (amended): each sub-query's failure is isolated — every output
field is a function of its own sub-query alone, so the two healthy
sub-queries' fields stay populated; a WHOIS failure is captured as an
error marker in the whois field, while certificate-transparency and
web-archive failures degrade to empty lists without a marker. -/
theorem osint_failure_isolation (target : String) (w : WhoisOutcome)
    (s : CrtOutcome) (wb : WaybackOutcome) :
    (OSINTCollector.collect_osint target w s wb).whois =
      OSINTCollector.collect_whois target w ∧
    (OSINTCollector.collect_osint target w s wb).subdomains =
      OSINTCollector.collect_subdomains_passive target s ∧
    (OSINTCollector.collect_osint target w s wb).historical_urls =
      OSINTCollector.collect_wayback_urls wb ∧
    (OSINTCollector.collect_osint target w s wb).subdomain_count =
      (OSINTCollector.collect_subdomains_passive target s).length ∧
    (∀ m, w = .fail m →
       (OSINTCollector.collect_osint target w s wb).whois.error = some m) ∧
    (s = .failure → (OSINTCollector.collect_osint target w s wb).subdomains = []) ∧
    (wb = .failure →
       (OSINTCollector.collect_osint target w s wb).historical_urls = []) := by
  refine ⟨rfl, rfl, rfl, rfl, ?_, ?_, ?_⟩
  · rintro m rfl; rfl
  · rintro rfl; rfl
  · rintro rfl; rfl

open OSINTCollector in
/-- C7 witness: a failing WHOIS query next to two healthy sub-queries. -/
theorem osint_failure_isolation_witness :
    (OSINTCollector.collect_osint "example.com" (.fail "whois down")
        (.success []) wayback0).whois.error = some "whois down" ∧
    (OSINTCollector.collect_osint "example.com" (.fail "whois down")
        (.success []) wayback0).historical_urls =
      OSINTCollector.collect_wayback_urls wayback0 :=
  ⟨(osint_failure_isolation "example.com" (.fail "whois down") (.success []) wayback0).2.2.2.2.1
     "whois down" rfl,
   (osint_failure_isolation "example.com" (.fail "whois down") (.success []) wayback0).2.2.1⟩

/-! ### Helper lemmas for the orchestrator claims -/

theorem takeWhile_append_allTrue {α : Type} (p : α → Bool) (A B : List α)
    (h : ∀ a ∈ A, p a = true) : (A ++ B).takeWhile p = A ++ B.takeWhile p := by
  induction A with
  | nil => simp
  | cons x xs ih =>
    simp [List.takeWhile_cons, h x (by simp), ih (fun a ha => h a (by simp [ha]))]

theorem dropWhile_append_allTrue {α : Type} (p : α → Bool) (A B : List α)
    (h : ∀ a ∈ A, p a = true) : (A ++ B).dropWhile p = B.dropWhile p := by
  induction A with
  | nil => simp
  | cons x xs ih =>
    simp [List.dropWhile_cons, h x (by simp), ih (fun a ha => h a (by simp [ha]))]

open TargetProfiler in
theorem setCompleted_not_mem_fpEvents (depth : String)
    (x : Except String FingerprintData) :
    Event.setCompleted ∉ fpEvents depth x := by
  cases x with
  | error e => simp [fpEvents]
  | ok f =>
    by_cases hs : f.services = [] <;> rcases hfp : f.httpFp with _ | fp <;>
      by_cases hd : depth = "deep" <;> simp [fpEvents, hs, hfp, hd]

open TargetProfiler in
theorem setCompleted_not_mem_riskEvents (x : Except String (List Json × Json)) :
    Event.setCompleted ∉ riskEvents x := by
  cases x <;> simp [riskEvents]

open TargetProfiler in
theorem setCompleted_not_mem_pipeEvents (stubs : StageStubs) (depth : String) :
    Event.setCompleted ∉ pipeEvents stubs depth := by
  simp only [pipeEvents, List.mem_append, List.mem_cons]
  push_neg
  refine ⟨⟨⟨⟨by simp, ?_⟩, ?_⟩, ?_⟩, setCompleted_not_mem_riskEvents _⟩
  · split <;> simp
  · split
    · exact setCompleted_not_mem_fpEvents _ _
    · simp
  · split <;> simp

open TargetProfiler in
theorem fingerprint_mem_fpEvents (depth : String)
    (x : Except String FingerprintData) :
    Event.runStage .fingerprint ∈ fpEvents depth x := by
  cases x <;> simp [fpEvents]

open TargetProfiler in
theorem risk_mem_riskEvents (x : Except String (List Json × Json)) :
    Event.runStage .risk ∈ riskEvents x := by
  cases x <;> simp [riskEvents]

open TargetProfiler in
theorem requested_mem_pipeEvents (stubs : StageStubs) (depth : String) :
    ∀ s ∈ requestedStages depth, Event.runStage s ∈ pipeEvents stubs depth := by
  intro s hs
  by_cases h1 : depth = "basic"
  · subst h1
    have hreq : requestedStages "basic" = [.dns] := rfl
    rw [hreq, List.mem_singleton] at hs
    subst hs; simp [pipeEvents]
  · by_cases h2 : depth = "standard"
    · subst h2
      have hreq : requestedStages "standard" = [.dns, .scan] := rfl
      rw [hreq] at hs
      simp only [List.mem_cons, List.not_mem_nil, or_false] at hs
      rcases hs with rfl | rfl <;> simp [pipeEvents, depthIn]
    · by_cases h3 : depth = "full"
      · subst h3
        have hreq : requestedStages "full" = [.dns, .scan, .fingerprint, .osint, .risk] := rfl
        rw [hreq] at hs
        simp only [List.mem_cons, List.not_mem_nil, or_false] at hs
        rcases hs with rfl | rfl | rfl | rfl | rfl <;>
          simp [pipeEvents, depthIn, fingerprint_mem_fpEvents, risk_mem_riskEvents]
      · by_cases h4 : depth = "deep"
        · subst h4
          have hreq : requestedStages "deep" = [.dns, .scan, .fingerprint, .osint, .risk] := rfl
          rw [hreq] at hs
          simp only [List.mem_cons, List.not_mem_nil, or_false] at hs
          rcases hs with rfl | rfl | rfl | rfl | rfl <;>
            simp [pipeEvents, depthIn, fingerprint_mem_fpEvents, risk_mem_riskEvents]
        · simp only [requestedStages, if_neg h1, if_neg h2, if_neg h3, if_neg h4,
            List.mem_singleton] at hs
          subst hs; simp [pipeEvents]

open TargetProfiler in
theorem beforeCompleted_append (E tail : List Event)
    (h : Event.setCompleted ∉ E) :
    beforeCompleted (E ++ Event.setCompleted :: tail) = E ∧
    afterCompleted (E ++ Event.setCompleted :: tail) = tail := by
  have hall : ∀ a ∈ E, (decide (a ≠ Event.setCompleted)) = true := by
    intro a ha
    simp only [decide_eq_true_eq]
    intro hc; exact h (hc ▸ ha)
  constructor
  · rw [beforeCompleted, takeWhile_append_allTrue _ _ _ hall]
    simp [List.takeWhile_cons]
  · rw [afterCompleted, dropWhile_append_allTrue _ _ _ hall]
    simp [List.dropWhile_cons]

/-! ### C2 -/

open TargetProfiler in
/-- C2 counterexample: at depth `basic` the vulnerability-assessment
(RISK) stage still executes — step 5 of `profile_target` is not gated by
depth — even though the DNS stubbing scenario otherwise behaves as
claimed. -/
theorem profile_basic_runs_risk_stage :
    Event.runStage StageName.risk ∈
      (profile_target stubsOk "example.com" "basic" false "T1" "T2").1 ∧
    aRecords ((runPipeline stubsOk "example.com" "basic" "T1" "T2").2.dns_info) =
      some (.arr [.str "93.184.216.34"]) ∧
    (runPipeline stubsOk "example.com" "basic" "T1" "T2").2.network_scan = .obj [] := by
  refine ⟨by decide, by decide, by decide⟩

open TargetProfiler in
/-- C2 (amended): at depth `basic` the run performs DNS and the ungated
RISK stage and nothing else; with DNS stubbed, `dns_info` is exactly the
stub value and `network_scan` stays the empty dict. -/
theorem profile_basic_stage_set (stubs : StageStubs) (target ts1 ts2 : String)
    (dnsJ : Json) (h : stubs.dns = .ok dnsJ) :
    (runPipeline stubs target "basic" ts1 ts2).2.dns_info = dnsJ ∧
    (runPipeline stubs target "basic" ts1 ts2).2.network_scan = .obj [] ∧
    (profile_target stubs target "basic" false ts1 ts2).2 =
      .ok (runPipeline stubs target "basic" ts1 ts2).2 ∧
    (∀ s, Event.runStage s ∈ (profile_target stubs target "basic" false ts1 ts2).1 ↔
       s = .dns ∨ s = .risk) := by
  have hg2 : depthIn "basic" ["standard", "full", "deep"] = false := rfl
  have hg34 : depthIn "basic" ["full", "deep"] = false := rfl
  refine ⟨?_, ?_, rfl, ?_⟩
  · rcases hr : stubs.risk with vr | er <;>
      simp [runPipeline, hg2, hg34, dnsUpdate, riskUpdate, h, hr]
  · rcases hr : stubs.risk with vr | er <;>
      simp [runPipeline, hg2, hg34, dnsUpdate, riskUpdate, h, hr]
  · intro s
    rcases hr : stubs.risk with vr | er <;>
      simp [profile_target, runPipeline, pipeEvents, riskEvents, hg2, hg34, hr]

/-- C2 witness: the amended theorem applied to the all-stub run with the
specification's DNS scenario value. -/
theorem profile_basic_stage_set_witness :
    (TargetProfiler.runPipeline stubsOk "example.com" "basic" "T1" "T2").2.dns_info =
      dnsJsonEx ∧
    (TargetProfiler.profile_target stubsOk "example.com" "basic" false "T1" "T2").2 =
      .ok (TargetProfiler.runPipeline stubsOk "example.com" "basic" "T1" "T2").2 :=
  ⟨(profile_basic_stage_set stubsOk "example.com" "T1" "T2" dnsJsonEx rfl).1,
   (profile_basic_stage_set stubsOk "example.com" "T1" "T2" dnsJsonEx rfl).2.2.1⟩

/-! ### C3 -/

open TargetProfiler in
/-- C3 counterexample: with evidence collection enabled, the
`evidence_sealed` and `evidence_files` fields are assigned after
`completed_at` has been set (`profiler.py` lines 218 vs. 224-225). -/
theorem evidence_fields_written_after_completed :
    Event.wrote ProfField.evidenceSealed ∈
      afterCompleted ((profile_target stubsOk "example.com" "basic" true "T1" "T2").1) ∧
    Event.wrote ProfField.evidenceFiles ∈
      afterCompleted ((profile_target stubsOk "example.com" "basic" true "T1" "T2").1) := by
  refine ⟨by decide, by decide⟩

open TargetProfiler in
/-- C3 (amended): after `completed_at` is set the only further steps are
the sealing stage and its two evidence bookkeeping fields — no stage-data
field of the profile is assigned any more — and `completed_at` is set only
after every stage requested by the depth has been attempted. -/
theorem completed_at_write_ordering (stubs : StageStubs)
    (target depth : String) (collectEvidence : Bool) (ts1 ts2 : String) :
    (∀ e ∈ afterCompleted ((profile_target stubs target depth collectEvidence ts1 ts2).1),
        e = Event.runStage .seal ∨ e = Event.wrote .evidenceSealed ∨
        e = Event.wrote .evidenceFiles) ∧
    (∀ s ∈ requestedStages depth,
        Event.runStage s ∈
          beforeCompleted ((profile_target stubs target depth collectEvidence ts1 ts2).1)) := by
  have hnm := setCompleted_not_mem_pipeEvents stubs depth
  rcases hc : collectEvidence with _ | _
  · have htr : (profile_target stubs target depth false ts1 ts2).1 =
        pipeEvents stubs depth ++ Event.setCompleted :: [] := by
      simp [profile_target, runPipeline]
    rw [htr]
    obtain ⟨hb, ha⟩ := beforeCompleted_append (pipeEvents stubs depth) [] hnm
    rw [hb, ha]
    exact ⟨by simp, requested_mem_pipeEvents stubs depth⟩
  · rcases hsv : stubs.save_all with msg | files
    · have htr : (profile_target stubs target depth true ts1 ts2).1 =
          pipeEvents stubs depth ++ Event.setCompleted :: [Event.runStage .seal] := by
        simp [profile_target, runPipeline, hsv]
      rw [htr]
      obtain ⟨hb, ha⟩ := beforeCompleted_append _ _ hnm
      rw [hb, ha]
      refine ⟨?_, requested_mem_pipeEvents stubs depth⟩
      intro e he
      simp only [List.mem_cons, List.not_mem_nil, or_false] at he
      tauto
    · have htr : (profile_target stubs target depth true ts1 ts2).1 =
          pipeEvents stubs depth ++ Event.setCompleted ::
            [Event.runStage .seal, Event.wrote .evidenceSealed, Event.wrote .evidenceFiles] := by
        simp [profile_target, runPipeline, hsv]
      rw [htr]
      obtain ⟨hb, ha⟩ := beforeCompleted_append _ _ hnm
      rw [hb, ha]
      refine ⟨?_, requested_mem_pipeEvents stubs depth⟩
      intro e he
      simp only [List.mem_cons, List.not_mem_nil, or_false] at he
      tauto

open TargetProfiler in
/-- C3 witness: the ordering theorem evaluated on a concrete sealed run. -/
theorem completed_at_write_ordering_witness :
    (Event.runStage StageName.seal = Event.runStage StageName.seal ∨
     Event.runStage StageName.seal = Event.wrote ProfField.evidenceSealed ∨
     Event.runStage StageName.seal = Event.wrote ProfField.evidenceFiles) ∧
    Event.runStage StageName.dns ∈
      beforeCompleted ((profile_target stubsOk "example.com" "basic" true "T1" "T2").1) :=
  ⟨(completed_at_write_ordering stubsOk "example.com" "basic" true "T1" "T2").1
     (Event.runStage .seal) (by decide),
   (completed_at_write_ordering stubsOk "example.com" "basic" true "T1" "T2").2
     StageName.dns (by decide)⟩

/-! ### C4 -/

open TargetProfiler in
/-- C4 counterexample: when sealing fails at the end of the run,
`profile_target` does not return a profile at all — the `save_all`
exception propagates out of the unprotected sealing block. -/
theorem sealing_failure_aborts_run :
    (profile_target stubsSealFail "example.com" "basic" true "T1" "T2").2 =
      Except.error "disk full" := rfl

open TargetProfiler in
/-- C4 (amended): a sealing failure propagates as the run's exception (no
profile is returned); the stage data produced before sealing is unaffected
by the sealing outcome — the pipeline result does not depend on the
`save_all` stub at all. -/
theorem sealing_failure_propagates (stubs : StageStubs)
    (target depth ts1 ts2 e : String) (h : stubs.save_all = .error e) :
    (profile_target stubs target depth true ts1 ts2).2 = .error e ∧
    (profile_target stubs target depth true ts1 ts2).1 =
      (runPipeline stubs target depth ts1 ts2).1 ++ [Event.runStage .seal] ∧
    (∀ o, runPipeline { stubs with save_all := o } target depth ts1 ts2 =
       runPipeline stubs target depth ts1 ts2) := by
  refine ⟨?_, ?_, fun o => rfl⟩ <;> simp [profile_target, h]

open TargetProfiler in
/-- C4 witness: the propagation theorem on the concrete failing-seal run. -/
theorem sealing_failure_propagates_witness :
    (profile_target stubsSealFail "example.com" "basic" true "T1" "T2").2 =
      Except.error "disk full" ∧
    runPipeline { stubsSealFail with save_all := .ok [] } "example.com" "basic" "T1" "T2" =
      runPipeline stubsSealFail "example.com" "basic" "T1" "T2" :=
  ⟨(sealing_failure_propagates stubsSealFail "example.com" "basic" "T1" "T2"
      "disk full" rfl).1,
   (sealing_failure_propagates stubsSealFail "example.com" "basic" "T1" "T2"
      "disk full" rfl).2.2 (.ok [])⟩

/-- C5 witness: the classification evaluated on a two-port scan in which
port 22 connects and port 9999 is refused. -/
theorem scan_ports_classification_witness :
    ((NetworkScanner.scan_ports decode0 svc0 [22, 9999] outcomes0).map
        (fun r => r.port) = [22, 9999]) ∧
    ((NetworkScanner.scan_port decode0 svc0 22 (outcomes0 22)).state = "open" ∨
     (NetworkScanner.scan_port decode0 svc0 22 (outcomes0 22)).state = "closed" ∨
     (NetworkScanner.scan_port decode0 svc0 22 (outcomes0 22)).state = "filtered" ∨
     (NetworkScanner.scan_port decode0 svc0 22 (outcomes0 22)).state = "error") ∧
    (NetworkScanner.scan_port decode0 svc0 9999 .refused).state = "closed" :=
  ⟨(scan_ports_classification decode0 svc0 [22, 9999] outcomes0).1,
   (scan_ports_classification decode0 svc0 [22, 9999] outcomes0).2.1
     (NetworkScanner.scan_port decode0 svc0 22 (outcomes0 22)) (by decide),
   (scan_ports_classification decode0 svc0 [22, 9999] outcomes0).2.2.2.2.1 9999⟩

end ForensicSense
